import Mathlib

/-!
Verification of the tarts sans-I/O LSP client (src/tarts/client.py,
src/tarts/events.py, src/tarts/structs.py) against its specification.

The Python source is shallowly embedded: pydantic models become Lean
structures with explicit decoders from a JSON value type, the mutable
`Client` object becomes a `Client` record threaded through operations, and
Python exceptions (failed `assert`, `KeyError` from `dict.pop`, pydantic
`ValidationError`, `NotImplementedError`) become the `Except Client` error
case carrying the object's state at the moment the exception is raised
(Python mutations performed before the raise persist).

Pydantic validation is modelled structurally: a model decodes from a JSON
object; required fields must be present and well-typed; `Optional` fields
decode to `none` when the key is absent or null and fail when present but
ill-typed; unions are tried left to right in declaration order; extra keys
are ignored; `Optional` fields without an explicit default behave as
defaulting to `None`, which is the semantics the source is written against
(its own constructor calls such as `Hover(contents=[])` rely on it).

The module `tarts/io_handler.py` (byte framing: `_make_request`,
`_make_response`, `_parse_messages`) is not part of the sources given;
outbound framing is therefore modelled from the spec at message
granularity: each call of `_make_request` / `_make_response` appends
exactly one framed JSON-RPC message to the send buffer, represented by one
`Frame` value.
-/

namespace Tarts

/-- JSON values, as carried in JSON-RPC params / result / error bodies. -/
inductive Json where
  | null : Json
  | bool (b : Bool) : Json
  | num (n : Int) : Json
  | str (s : String) : Json
  | arr (elems : List Json) : Json
  | obj (fields : List (String × Json)) : Json

/-- Key lookup in a JSON object (Python `d[k]` / `k in d`); `none` when the
value is not an object or the key is absent. -/
def Json.get? : Json → String → Option Json
  | .obj fields, k => fields.lookup k
  | _, _ => none

/-- Python `isinstance(x, dict)`. -/
def Json.isObj : Json → Bool
  | .obj _ => true
  | _ => false

def Json.asStr? : Json → Option String
  | .str s => some s
  | _ => none

def Json.asInt? : Json → Option Int
  | .num n => some n
  | _ => none

def Json.asBool? : Json → Option Bool
  | .bool b => some b
  | _ => none

def Json.asArr? : Json → Option (List Json)
  | .arr xs => some xs
  | _ => none

/-- A JSON-RPC `Id`: `t.Union[int, str]` in the source. -/
inductive RId where
  | num (n : Int) : RId
  | str (s : String) : RId
deriving DecidableEq

/-- Decode a required field of an object. -/
def reqField (j : Json) (k : String) (dec : Json → Option α) : Option α :=
  (j.get? k).bind dec

/-- Decode an `Optional[X]` field: absent or null keys give `none`; a
present non-null value must decode at `X`. -/
def optField (j : Json) (k : String) (dec : Json → Option α) : Option (Option α) :=
  match j.get? k with
  | none => some none
  | some .null => some none
  | some v => (dec v).map some

/-- Decode every element of a JSON array (`t.List[X]`). -/
def decList (dec : Json → Option α) : Json → Option (List α)
  | .arr xs => xs.mapM dec
  | _ => none

/-- `t.Union[int, str]` (`Id`, also `ProgressToken`). -/
def decRId : Json → Option RId
  | .num n => some (.num n)
  | .str s => some (.str s)
  | _ => none

/-- An IntEnum field: the value must be one of the enum's member values. -/
def decIntEnum (lo hi : Int) (j : Json) : Option Int :=
  match j with
  | .num n => if lo ≤ n ∧ n ≤ hi then some n else none
  | _ => none

end Tarts

namespace Tarts

/-! ## Payload records (src/tarts/structs.py) and their decoders.

Only the records the client's dispatch path touches are embedded. Client →
server records additionally get their `model_dump` serialization (pydantic
`model_dump` includes `None`-valued optional fields as JSON null unless the
source overrides it). -/

/-- structs.Position. -/
structure Position where
  line : Int
  character : Int

def Position.model_dump (p : Position) : Json :=
  .obj [("line", .num p.line), ("character", .num p.character)]

def decPosition (j : Json) : Option Position := do
  let line ← reqField j "line" Json.asInt?
  let character ← reqField j "character" Json.asInt?
  pure ⟨line, character⟩

/-- structs.Range. -/
structure Range where
  start : Position
  «end» : Position

def Range.model_dump (r : Range) : Json :=
  .obj [("start", r.start.model_dump), ("end", r.«end».model_dump)]

def decRange (j : Json) : Option Range := do
  let s ← reqField j "start" decPosition
  let e ← reqField j "end" decPosition
  pure ⟨s, e⟩

/-- structs.TextEdit. -/
structure TextEdit where
  range : Range
  newText : String
  annotationId : Option String

def decTextEdit (j : Json) : Option TextEdit := do
  let range ← reqField j "range" decRange
  let newText ← reqField j "newText" Json.asStr?
  let ann ← optField j "annotationId" Json.asStr?
  pure ⟨range, newText, ann⟩

/-- structs.Location. -/
structure Location where
  uri : String
  range : Range

def decLocation (j : Json) : Option Location := do
  let uri ← reqField j "uri" Json.asStr?
  let range ← reqField j "range" decRange
  pure ⟨uri, range⟩

/-- structs.LocationLink. -/
structure LocationLink where
  originSelectionRange : Option Range
  targetUri : String
  targetRange : Range
  targetSelectionRange : Range

def decLocationLink (j : Json) : Option LocationLink := do
  let origin ← optField j "originSelectionRange" decRange
  let targetUri ← reqField j "targetUri" Json.asStr?
  let targetRange ← reqField j "targetRange" decRange
  let targetSel ← reqField j "targetSelectionRange" decRange
  pure ⟨origin, targetUri, targetRange, targetSel⟩

/-- structs.MarkupContent (`kind` is the MarkupKind string enum). -/
structure MarkupContent where
  kind : String
  value : String

def decMarkupContent (j : Json) : Option MarkupContent := do
  let kind ← reqField j "kind" Json.asStr?
  if kind = "plaintext" ∨ kind = "markdown" then
    let value ← reqField j "value" Json.asStr?
    pure ⟨kind, value⟩
  else none

/-- structs.MarkedString. -/
structure MarkedString where
  language : String
  value : String

def decMarkedString (j : Json) : Option MarkedString := do
  let language ← reqField j "language" Json.asStr?
  let value ← reqField j "value" Json.asStr?
  pure ⟨language, value⟩

/-- structs.Command. -/
structure Command where
  title : String
  command : String
  arguments : Option (List Json)

def decCommand (j : Json) : Option Command := do
  let title ← reqField j "title" Json.asStr?
  let command ← reqField j "command" Json.asStr?
  let args ← optField j "arguments" Json.asArr?
  pure ⟨title, command, args⟩

/-- `t.Union[str, MarkupContent, None]` documentation fields (tried in
declaration order). -/
def decDocumentation (j : Json) : Option (Sum String MarkupContent) :=
  match j.asStr? with
  | some s => some (.inl s)
  | none => (decMarkupContent j).map .inr

/-- structs.CompletionItem. -/
structure CompletionItem where
  label : String
  kind : Option Int
  tags : Option Int
  detail : Option String
  documentation : Option (Sum String MarkupContent)
  deprecated : Option Bool
  preselect : Option Bool
  sortText : Option String
  filterText : Option String
  insertText : Option String
  insertTextFormat : Option Int
  textEdit : Option TextEdit
  additionalTextEdits : Option (List TextEdit)
  commitCharacters : Option (List String)
  command : Option Command
  data : Option Json

def decCompletionItem (j : Json) : Option CompletionItem := do
  let label ← reqField j "label" Json.asStr?
  let kind ← optField j "kind" (decIntEnum 1 25)
  let tags ← optField j "tags" (decIntEnum 1 1)
  let detail ← optField j "detail" Json.asStr?
  let documentation ← optField j "documentation" decDocumentation
  let deprecated ← optField j "deprecated" Json.asBool?
  let preselect ← optField j "preselect" Json.asBool?
  let sortText ← optField j "sortText" Json.asStr?
  let filterText ← optField j "filterText" Json.asStr?
  let insertText ← optField j "insertText" Json.asStr?
  let insertTextFormat ← optField j "insertTextFormat" (decIntEnum 1 2)
  let textEdit ← optField j "textEdit" decTextEdit
  let additional ← optField j "additionalTextEdits" (decList decTextEdit)
  let commit ← optField j "commitCharacters" (decList Json.asStr?)
  let command ← optField j "command" decCommand
  let data ← optField j "data" some
  pure ⟨label, kind, tags, detail, documentation, deprecated, preselect, sortText,
        filterText, insertText, insertTextFormat, textEdit, additional, commit,
        command, data⟩

/-- structs.CompletionList. -/
structure CompletionList where
  isIncomplete : Bool
  items : List CompletionItem

def decCompletionList (j : Json) : Option CompletionList := do
  let inc ← reqField j "isIncomplete" Json.asBool?
  let items ← reqField j "items" (decList decCompletionItem)
  pure ⟨inc, items⟩

/-- structs.FoldingRange. -/
structure FoldingRange where
  startLine : Int
  startCharacter : Option Int
  endLine : Int
  endCharacter : Option Int
  kind : Option String
  collapsedText : Option String

def decFoldingRange (j : Json) : Option FoldingRange := do
  let sl ← reqField j "startLine" Json.asInt?
  let sc ← optField j "startCharacter" Json.asInt?
  let el ← reqField j "endLine" Json.asInt?
  let ec ← optField j "endCharacter" Json.asInt?
  let kind ← optField j "kind" Json.asStr?
  let col ← optField j "collapsedText" Json.asStr?
  pure ⟨sl, sc, el, ec, kind, col⟩

/-- structs.ParameterInformation (`label: Union[str, Tuple[int, int]]`). -/
structure ParameterInformation where
  label : Sum String (Int × Int)
  documentation : Option (Sum String MarkupContent)

def decParamLabel (j : Json) : Option (Sum String (Int × Int)) :=
  match j with
  | .str s => some (.inl s)
  | .arr [.num a, .num b] => some (.inr (a, b))
  | _ => none

def decParameterInformation (j : Json) : Option ParameterInformation := do
  let label ← reqField j "label" decParamLabel
  let doc ← optField j "documentation" decDocumentation
  pure ⟨label, doc⟩

/-- structs.SignatureInformation (documentation union is declared
`Union[MarkupContent, str]`; MarkupContent is tried first). -/
structure SignatureInformation where
  label : String
  documentation : Option (Sum MarkupContent String)
  parameters : Option (List ParameterInformation)
  activeParameter : Option Int

def decSigDocumentation (j : Json) : Option (Sum MarkupContent String) :=
  match decMarkupContent j with
  | some m => some (.inl m)
  | none => j.asStr?.map .inr

def decSignatureInformation (j : Json) : Option SignatureInformation := do
  let label ← reqField j "label" Json.asStr?
  let doc ← optField j "documentation" decSigDocumentation
  let ps ← optField j "parameters" (decList decParameterInformation)
  let ap ← optField j "activeParameter" Json.asInt?
  pure ⟨label, doc, ps, ap⟩

/-- structs.SymbolInformation. -/
structure SymbolInformation where
  name : String
  kind : Int
  tags : Option (List Int)
  deprecated : Option Bool
  location : Location
  containerName : Option String

def decSymbolInformation (j : Json) : Option SymbolInformation := do
  let name ← reqField j "name" Json.asStr?
  let kind ← reqField j "kind" (decIntEnum 1 26)
  let tags ← optField j "tags" (decList (decIntEnum 1 1))
  let dep ← optField j "deprecated" Json.asBool?
  let loc ← reqField j "location" decLocation
  let container ← optField j "containerName" Json.asStr?
  pure ⟨name, kind, tags, dep, loc, container⟩

/-- structs.CallHierarchyItem (`tags: Optional[SymbolTag]`, a scalar). -/
structure CallHierarchyItem where
  name : String
  kind : Int
  tags : Option Int
  detail : Option String
  uri : String
  range : Range
  selectionRange : Range
  data : Option Json

def decCallHierarchyItem (j : Json) : Option CallHierarchyItem := do
  let name ← reqField j "name" Json.asStr?
  let kind ← reqField j "kind" (decIntEnum 1 26)
  let tags ← optField j "tags" (decIntEnum 1 1)
  let detail ← optField j "detail" Json.asStr?
  let uri ← reqField j "uri" Json.asStr?
  let range ← reqField j "range" decRange
  let sel ← reqField j "selectionRange" decRange
  let data ← optField j "data" some
  pure ⟨name, kind, tags, detail, uri, range, sel, data⟩

/-- structs.DocumentSymbol (recursive through `children`). -/
inductive DocumentSymbol where
  | mk (name : String) (detail : Option String) (kind : Int)
       (tags : Option (List Int)) (deprecated : Option Bool)
       (range : Range) (selectionRange : Range)
       (children : Option (List DocumentSymbol)) : DocumentSymbol

/-- Fuel-indexed decoder for the recursive DocumentSymbol; fuel bounds the
nesting depth of `children` and is instantiated below with the size of the
input, which always suffices. -/
def decDocumentSymbolF : Nat → Json → Option DocumentSymbol
  | 0, _ => none
  | fuel + 1, j => do
    let name ← reqField j "name" Json.asStr?
    let detail ← optField j "detail" Json.asStr?
    let kind ← reqField j "kind" (decIntEnum 1 26)
    let tags ← optField j "tags" (decList (decIntEnum 1 1))
    let dep ← optField j "deprecated" Json.asBool?
    let range ← reqField j "range" decRange
    let sel ← reqField j "selectionRange" decRange
    let children ← optField j "children" (decList (decDocumentSymbolF fuel))
    pure (.mk name detail kind tags dep range sel children)

mutual

/-- Size of a JSON value, used as decoding fuel for DocumentSymbol. -/
def Json.size : Json → Nat
  | .null => 1
  | .bool _ => 1
  | .num _ => 1
  | .str _ => 1
  | .arr xs => 1 + Json.sizeList xs
  | .obj fields => 1 + Json.sizeFields fields

def Json.sizeList : List Json → Nat
  | [] => 0
  | x :: xs => Json.size x + Json.sizeList xs

def Json.sizeFields : List (String × Json) → Nat
  | [] => 0
  | f :: fs => Json.size f.2 + Json.sizeFields fs

end

def decDocumentSymbol (j : Json) : Option DocumentSymbol :=
  decDocumentSymbolF j.size j

/-- structs.OptionalVersionedTextDocumentIdentifier. -/
structure OptionalVersionedTextDocumentIdentifier where
  uri : String
  version : Option Int

def decOptionalVersionedTextDocumentIdentifier (j : Json) :
    Option OptionalVersionedTextDocumentIdentifier := do
  let uri ← reqField j "uri" Json.asStr?
  let version ← optField j "version" Json.asInt?
  pure ⟨uri, version⟩

/-- structs.TextDocumentEdit. -/
structure TextDocumentEdit where
  textDocument : OptionalVersionedTextDocumentIdentifier
  edits : List TextEdit

def decTextDocumentEdit (j : Json) : Option TextDocumentEdit := do
  let td ← reqField j "textDocument" decOptionalVersionedTextDocumentIdentifier
  let edits ← reqField j "edits" (decList decTextEdit)
  pure ⟨td, edits⟩

/-- structs.InlayHintLabelPart. -/
structure InlayHintLabelPart where
  value : String
  tooltip : Option (Sum String MarkupContent)
  location : Option Location
  command : Option Command

def decInlayHintLabelPart (j : Json) : Option InlayHintLabelPart := do
  let value ← reqField j "value" Json.asStr?
  let tooltip ← optField j "tooltip" decDocumentation
  let loc ← optField j "location" decLocation
  let cmd ← optField j "command" decCommand
  pure ⟨value, tooltip, loc, cmd⟩

/-- structs.InlayHint. -/
structure InlayHint where
  position : Position
  label : Sum String (List InlayHintLabelPart)
  kind : Option Int
  textEdits : Option (List TextEdit)
  tooltip : Option (Sum String MarkupContent)
  paddingLeft : Option Bool
  paddingRight : Option Bool
  data : Option Json

def decInlayHintLabel (j : Json) : Option (Sum String (List InlayHintLabelPart)) :=
  match j.asStr? with
  | some s => some (.inl s)
  | none => (decList decInlayHintLabelPart j).map .inr

def decInlayHint (j : Json) : Option InlayHint := do
  let pos ← reqField j "position" decPosition
  let label ← reqField j "label" decInlayHintLabel
  let kind ← optField j "kind" (decIntEnum 1 2)
  let te ← optField j "textEdits" (decList decTextEdit)
  let tooltip ← optField j "tooltip" decDocumentation
  let pl ← optField j "paddingLeft" Json.asBool?
  let pr ← optField j "paddingRight" Json.asBool?
  let data ← optField j "data" some
  pure ⟨pos, label, kind, te, tooltip, pl, pr, data⟩

/-- structs.WorkspaceFolder. -/
structure WorkspaceFolder where
  uri : String
  name : String

def WorkspaceFolder.model_dump (w : WorkspaceFolder) : Json :=
  .obj [("uri", .str w.uri), ("name", .str w.name)]

/-- structs.MessageActionItem. -/
structure MessageActionItem where
  title : String

def MessageActionItem.dict (a : MessageActionItem) : Json :=
  .obj [("title", .str a.title)]

/-- structs.TextDocumentItem. -/
structure TextDocumentItem where
  uri : String
  languageId : String
  version : Int
  text : String

def TextDocumentItem.model_dump (d : TextDocumentItem) : Json :=
  .obj [("uri", .str d.uri), ("languageId", .str d.languageId),
        ("version", .num d.version), ("text", .str d.text)]

/-- structs.TextDocumentIdentifier. -/
structure TextDocumentIdentifier where
  uri : String

def TextDocumentIdentifier.model_dump (d : TextDocumentIdentifier) : Json :=
  .obj [("uri", .str d.uri)]

/-- structs.VersionedTextDocumentIdentifier. -/
structure VersionedTextDocumentIdentifier where
  uri : String
  version : Option Int

def VersionedTextDocumentIdentifier.model_dump
    (d : VersionedTextDocumentIdentifier) : Json :=
  .obj [("uri", .str d.uri),
        ("version", match d.version with | some v => .num v | none => .null)]

/-- structs.TextDocumentContentChangeEvent. Its `model_dump` override drops
`range` / `rangeLength` keys when they are `None`. -/
structure TextDocumentContentChangeEvent where
  text : String
  range : Option Range
  rangeLength : Option Int

def TextDocumentContentChangeEvent.model_dump
    (e : TextDocumentContentChangeEvent) : Json :=
  .obj ([("text", .str e.text)]
    ++ (match e.range with | some r => [("range", r.model_dump)] | none => [])
    ++ (match e.rangeLength with | some n => [("rangeLength", .num n)] | none => []))

/-- structs.TextDocumentPosition. -/
structure TextDocumentPosition where
  textDocument : TextDocumentIdentifier
  position : Position

def TextDocumentPosition.model_dump (p : TextDocumentPosition) : Json :=
  .obj [("textDocument", p.textDocument.model_dump),
        ("position", p.position.model_dump)]

/-- structs.CompletionContext. -/
structure CompletionContext where
  triggerKind : Int
  triggerCharacter : Option String

def CompletionContext.model_dump (c : CompletionContext) : Json :=
  .obj [("triggerKind", .num c.triggerKind),
        ("triggerCharacter",
          match c.triggerCharacter with | some s => .str s | none => .null)]

/-- structs.FormattingOptions. -/
structure FormattingOptions where
  tabSize : Int
  insertSpaces : Bool
  trimTrailingWhitespace : Option Bool
  insertFinalNewline : Option Bool
  trimFinalNewlines : Option Bool

def FormattingOptions.model_dump (o : FormattingOptions) : Json :=
  .obj [("tabSize", .num o.tabSize), ("insertSpaces", .bool o.insertSpaces),
        ("trimTrailingWhitespace",
          match o.trimTrailingWhitespace with | some b => .bool b | none => .null),
        ("insertFinalNewline",
          match o.insertFinalNewline with | some b => .bool b | none => .null),
        ("trimFinalNewlines",
          match o.trimFinalNewlines with | some b => .bool b | none => .null)]

end Tarts

namespace Tarts

/-! ## Events (src/tarts/events.py) and response-payload decoders.

All `message_id` fields of response events are overwritten by the dispatch
code with the integer id of the correlated response (`event.message_id =
response.id` or a keyword argument), so they are carried as `Option Nat`;
the classes `References`, `Implementation`, `Declaration`,
`TypeDefinition`, `MCallHierarchItems` and `MWorkspaceSymbols` declare no
`message_id` field at all and their constructors here have none. -/

/-- `t.Union[Location, t.List[t.Union[Location, LocationLink]], None]`. -/
def LocResult :=
  Option (Sum Location (List (Sum Location LocationLink)))

/-- events.Hover `contents` union, alternatives in declaration order. -/
inductive HoverContents where
  | list (xs : List (Sum MarkedString String)) : HoverContents
  | marked (m : MarkedString) : HoverContents
  | markup (m : MarkupContent) : HoverContents
  | plain (s : String) : HoverContents

inductive Event where
  | ResponseError (message_id : Option Nat) (code : Int) (message : String)
      (data : Option Json) : Event
  | Initialized (capabilities : Json) : Event
  | Shutdown : Event
  | Completion (message_id : Nat) (completion_list : Option CompletionList) : Event
  | WillSaveWaitUntilEdits (edits : Option (List TextEdit)) : Event
  | Hover (message_id : Option Nat) (contents : HoverContents)
      (range : Option Range) : Event
  | SignatureHelp (message_id : Option Nat) (signatures : List SignatureInformation)
      (activeSignature : Option Int) (activeParameter : Option Int) : Event
  | MFoldingRanges (message_id : Option Nat)
      (result : Option (List FoldingRange)) : Event
  | MDocumentSymbols (message_id : Option Nat)
      (result : Option (Sum (List SymbolInformation) (List DocumentSymbol))) : Event
  | MInlayHints (message_id : Option Nat) (result : Option (List InlayHint)) : Event
  | WorkspaceEdit (message_id : Option Nat)
      (changes : Option (List (String × TextEdit)))
      (documentChanges : Option (List TextDocumentEdit)) : Event
  | Definition (message_id : Option Nat) (result : LocResult) : Event
  | References (result : Option (List Location)) : Event
  | Implementation (result : LocResult) : Event
  | Declaration (result : LocResult) : Event
  | TypeDefinition (result : LocResult) : Event
  | MCallHierarchItems (result : Option (List CallHierarchyItem)) : Event
  | DocumentFormatting (message_id : Option Nat)
      (result : Option (List TextEdit)) : Event
  | MWorkspaceSymbols (result : Option (List SymbolInformation)) : Event

/-- Whether the event class declares a `message_id` field. -/
def Event.hasMessageId : Event → Bool
  | .Initialized _ => false
  | .Shutdown => false
  | .WillSaveWaitUntilEdits _ => false
  | .References _ => false
  | .Implementation _ => false
  | .Declaration _ => false
  | .TypeDefinition _ => false
  | .MCallHierarchItems _ => false
  | .MWorkspaceSymbols _ => false
  | _ => true

/-- `ResponseError.model_validate(response.error)`: code and message are
required, `message_id` and `data` are optional (the caller then overwrites
`message_id` with the response id). -/
def decResponseError (e : Json) : Option (Int × String × Option Json) := do
  let _mid ← optField e "message_id" decRId
  let code ← reqField e "code" Json.asInt?
  let message ← reqField e "message" Json.asStr?
  let data ← optField e "data" some
  pure (code, message, data)

/-- `Initialized.model_validate(response.result)`: the input must be an
object whose required `capabilities` field is an object (`JSONDict`). -/
def decInitialized : Option Json → Option Json
  | some j => do
    let caps ← j.get? "capabilities"
    if caps.isObj then pure caps else none
  | none => none

/-- A value at type `Optional[X]`: JSON null is `None`. -/
def decOptVal (dec : Json → Option α) : Json → Option (Option α)
  | .null => some none
  | j => (dec j).map some

/-- The `result` member of the synthetic dict `{"result": response.result}`
validated at `Optional[X]`: an absent (`None`) result is `None`. -/
def decOptResult (dec : Json → Option α) : Option Json → Option (Option α)
  | none => some none
  | some .null => some none
  | some j => (dec j).map some

def decLocOrLink (j : Json) : Option (Sum Location LocationLink) :=
  match decLocation j with
  | some l => some (.inl l)
  | none => (decLocationLink j).map .inr

def decLocUnion (j : Json) : Option (Sum Location (List (Sum Location LocationLink))) :=
  match decLocation j with
  | some l => some (.inl l)
  | none => (decList decLocOrLink j).map .inr

def decLocResult : Option Json → Option LocResult :=
  decOptResult decLocUnion

/-- `Hover.model_validate(response.result)` (`message_id` and `range` are
optional and `message_id` is subsequently overwritten). -/
def decHoverContents (j : Json) : Option HoverContents :=
  match decList (fun x => match decMarkedString x with
      | some m => some (Sum.inl m)
      | none => x.asStr?.map Sum.inr) j with
  | some xs => some (.list xs)
  | none =>
    match decMarkedString j with
    | some m => some (.marked m)
    | none =>
      match decMarkupContent j with
      | some m => some (.markup m)
      | none => j.asStr?.map .plain

def decHoverEvent (j : Json) : Option (HoverContents × Option Range) := do
  let _mid ← optField j "message_id" decRId
  let contents ← reqField j "contents" decHoverContents
  let range ← optField j "range" decRange
  pure (contents, range)

/-- `SignatureHelp.model_validate(response.result)`. -/
def decSignatureHelpEvent (j : Json) :
    Option (List SignatureInformation × Option Int × Option Int) := do
  let _mid ← optField j "message_id" decRId
  let sigs ← reqField j "signatures" (decList decSignatureInformation)
  let act ← optField j "activeSignature" Json.asInt?
  let par ← optField j "activeParameter" Json.asInt?
  pure (sigs, act, par)

/-- `Union[List[SymbolInformation], List[DocumentSymbol], None]`,
alternatives in declaration order. -/
def decDocSymResult (j : Json) :
    Option (Option (Sum (List SymbolInformation) (List DocumentSymbol))) :=
  match j with
  | .null => some none
  | _ =>
    match decList decSymbolInformation j with
    | some xs => some (some (.inl xs))
    | none => (decList decDocumentSymbol j).map (fun ys => some (.inr ys))

/-- `Optional[Dict[str, TextEdit]]` (the declared type of
`WorkspaceEdit.changes`). -/
def decChangesDict (j : Json) : Option (List (String × TextEdit)) :=
  match j with
  | .obj fields => fields.mapM (fun p => (decTextEdit p.2).map (fun e => (p.1, e)))
  | _ => none

end Tarts

namespace Tarts

/-! ## The session (src/tarts/client.py). -/

/-- client.ClientState. -/
inductive ClientState where
  | NOT_INITIALIZED : ClientState
  | WAITING_FOR_INITIALIZED : ClientState
  | NORMAL : ClientState
  | WAITING_FOR_SHUTDOWN : ClientState
  | SHUTDOWN : ClientState
  | EXITED : ClientState
deriving DecidableEq

/-- Modelled from the spec: `tarts/io_handler.py` is not among the given
sources; its `_make_request` and `_make_response` each frame exactly one
JSON-RPC message (`Content-Length` header plus UTF-8 JSON body) and the
result is appended to the send buffer. One `Frame` stands for the framed
bytes of one such message; the send buffer is the list of frames in append
order. -/
inductive Frame where
  | request (id : Nat) (method : String) (params : Option Json) : Frame
  | notification (method : String) (params : Option Json) : Frame
  | response (id : RId) (result : Option Json) (error : Option Json) : Frame

/-- structs.Request, as stored in `_unanswered_requests` (outbound
requests always carry the integer id drawn from the counter). -/
structure Request where
  id : Nat
  method : String
  params : Option Json

/-- structs.Response for a response correlated to an outbound request;
its id is the integer the client allocated (a response whose id is not an
allocated integer can never be found in the correlation table and raises
`KeyError`, which the dispatch model returns as the error case). -/
structure Response where
  id : Nat
  result : Option Json
  error : Option Json

/-- client.Client: the session state. `recv_buf` holds raw fed bytes
(parsing lives in the absent io_handler module). -/
structure Client where
  state : ClientState
  recv_buf : List Nat
  send_buf : List Frame
  unanswered_requests : List (Nat × Request)
  id_counter : Nat

/-- Python `dict.pop(id)`: the entry and the table without it, or `none`
(KeyError) when absent. Insertion order of the remaining entries is kept. -/
def popEntry (tbl : List (Nat × Request)) (id : Nat) :
    Option (Request × List (Nat × Request)) :=
  match tbl.lookup id with
  | none => none
  | some r => some (r, tbl.filter (fun p => p.1 != id))

/-- The key set of the correlation table. -/
def tableKeys (tbl : List (Nat × Request)) : List Nat :=
  tbl.map Prod.fst

/-- Client._send_request: allocate the next id, frame the request, record
it in the correlation table; returns the id. -/
def _send_request (c : Client) (method : String) (params : Option Json) :
    Nat × Client :=
  let id := c.id_counter
  (id,
    { c with
      id_counter := c.id_counter + 1
      send_buf := c.send_buf ++ [Frame.request id method params]
      unanswered_requests :=
        c.unanswered_requests ++ [(id, ⟨id, method, params⟩)] })

/-- Client._send_notification. -/
def _send_notification (c : Client) (method : String) (params : Option Json) :
    Client :=
  { c with send_buf := c.send_buf ++ [Frame.notification method params] }

/-- Client._send_response. -/
def _send_response (c : Client) (id : RId) (result : Option Json)
    (error : Option Json) : Client :=
  { c with send_buf := c.send_buf ++ [Frame.response id result error] }

/-- Python `dict.update` on string-keyed JSON dicts: existing keys keep
their position and take the new value, new keys are appended in order. -/
def dictUpdate (d u : List (String × Json)) : List (String × Json) :=
  (d.map fun p => match u.lookup p.1 with | some v => (p.1, v) | none => p)
    ++ u.filter (fun p => (d.lookup p.1).isNone)

/-- The `initialize` params dict `d` built by Client.__init__ (updated with
the non-empty `initialize_options`). -/
def initializeParamsDict (process_id : Option Int) (root_uri : Option String)
    (workspace_folders : Option (List WorkspaceFolder)) (trace : String)
    (capabilities : Option Json) (initialize_options : List (String × Json)) :
    List (String × Json) :=
  let d : List (String × Json) :=
    [("processId", match process_id with | some n => .num n | none => .null),
     ("rootUri", match root_uri with | some s => .str s | none => .null),
     ("workspaceFolders",
       match workspace_folders with
       | none => .null
       | some fs => .arr (fs.map WorkspaceFolder.model_dump)),
     ("trace", .str trace),
     ("capabilities", match capabilities with | some j => j | none => .null)]
  if initialize_options.isEmpty then d else dictUpdate d initialize_options

/-- Client.__init__: fresh buffers, empty correlation table, counter 0;
with the initialize flag set (the default) an `initialize` request built
from the construction arguments is sent and the state becomes
WAITING_FOR_INITIALIZED, otherwise the state stays NOT_INITIALIZED. -/
def Client.new (process_id : Option Int) (root_uri : Option String)
    (workspace_folders : Option (List WorkspaceFolder)) (trace : String)
    (capabilities : Option Json) (initialize_options : List (String × Json))
    (init : Bool) : Client :=
  let c : Client :=
    { state := .NOT_INITIALIZED, recv_buf := [], send_buf := [],
      unanswered_requests := [], id_counter := 0 }
  let d := initializeParamsDict process_id root_uri workspace_folders trace
    capabilities initialize_options
  if init then
    let r := _send_request c "initialize" (some (.obj d))
    { r.2 with state := .WAITING_FOR_INITIALIZED }
  else c

/-- Client._handle_response. The entry for the response id is popped first
(`KeyError` when absent); an error member short-circuits to a
ResponseError event; otherwise the originating method selects the decoder.
`Except.error c` models a Python exception raised while the object is in
state `c` (mutations made before the raise, including the pop itself and
an already-appended `initialized` notification, persist). -/
def _handle_response (c : Client) (r : Response) : Except Client (Client × Event) :=
  match popEntry c.unanswered_requests r.id with
  | none => .error c
  | some (request, rest) =>
    let c := { c with unanswered_requests := rest }
    match r.error with
    | some e =>
      match decResponseError e with
      | none => .error c
      | some (code, message, data) =>
        .ok (c, .ResponseError (some r.id) code message data)
    | none =>
      match request.method with
      | "initialize" =>
        if c.state = ClientState.WAITING_FOR_INITIALIZED then
          -- the `initialized` notification is sent before the result is
          -- validated and before the state flips to NORMAL
          let c := _send_notification c "initialized" (some (.obj []))
          match decInitialized r.result with
          | some caps => .ok ({ c with state := .NORMAL }, .Initialized caps)
          | none => .error c
        else .error c
      | "shutdown" =>
        if c.state = ClientState.WAITING_FOR_SHUTDOWN then
          .ok ({ c with state := .SHUTDOWN }, .Shutdown)
        else .error c
      | "textDocument/completion" =>
        match r.result with
        | none => .ok (c, .Completion r.id none)
        | some res =>
          match decCompletionList res with
          | some cl => .ok (c, .Completion r.id (some cl))
          | none =>
            -- salvage rule: a dict bearing "items" becomes a CompletionList
            -- with isIncomplete=False; a failure while decoding the items
            -- escapes the except-block
            if res.isObj ∧ (res.get? "items").isSome then
              match (res.get? "items").bind (decList decCompletionItem) with
              | some items => .ok (c, .Completion r.id (some ⟨false, items⟩))
              | none => .error c
            else .ok (c, .Completion r.id none)
      | "textDocument/willSaveWaitUntil" =>
        match r.result with
        | some res =>
          match decList decTextEdit res with
          | some edits => .ok (c, .WillSaveWaitUntilEdits (some edits))
          | none => .error c
        | none => .error c
      | "textDocument/hover" =>
        match r.result with
        | some res =>
          match decHoverEvent res with
          | some (contents, range) => .ok (c, .Hover (some r.id) contents range)
          | none => .error c
        | none => .ok (c, .Hover (some r.id) (.list []) none)
      | "textDocument/foldingRange" =>
        match decOptVal (decList decFoldingRange)
            (match r.result with | some res => res | none => .arr []) with
        | some res => .ok (c, .MFoldingRanges (some r.id) res)
        | none => .error c
      | "textDocument/signatureHelp" =>
        match r.result with
        | some res =>
          match decSignatureHelpEvent res with
          | some (sigs, act, par) =>
            .ok (c, .SignatureHelp (some r.id) sigs act par)
          | none => .error c
        | none => .ok (c, .SignatureHelp (some r.id) [] none none)
      | "textDocument/documentSymbol" =>
        match decDocSymResult
            (match r.result with | some res => res | none => .arr []) with
        | some res => .ok (c, .MDocumentSymbols (some r.id) res)
        | none => .error c
      | "textDocument/inlayHint" =>
        -- the source validates the whole Response object against
        -- MInlayHints (message_id is not among its attributes and defaults
        -- to None, the result attribute is the payload), then overwrites
        -- message_id with the response id
        match decOptResult (decList decInlayHint) r.result with
        | some res => .ok (c, .MInlayHints (some r.id) res)
        | none => .error c
      | "textDocument/rename" =>
        match r.result with
        | some res =>
          if res.isObj then
            match res.get? "documentChanges" with
            | some dc =>
              match dc.asArr? with
              | some xs =>
                match xs.mapM decTextDocumentEdit with
                | some dcs => .ok (c, .WorkspaceEdit (some r.id) none (some dcs))
                | none => .error c
              | none => .error c
            | none =>
              match res.get? "changes" with
              | some ch =>
                match decOptVal decChangesDict ch with
                | some chs => .ok (c, .WorkspaceEdit (some r.id) chs none)
                | none => .error c
              | none => .ok (c, .WorkspaceEdit (some r.id) none none)
          else .ok (c, .WorkspaceEdit (some r.id) none none)
        | none => .ok (c, .WorkspaceEdit (some r.id) none none)
      | "textDocument/definition" =>
        match decLocResult r.result with
        | some res => .ok (c, .Definition (some r.id) res)
        | none => .error c
      | "textDocument/references" =>
        match decOptResult (decList decLocation) r.result with
        | some res => .ok (c, .References res)
        | none => .error c
      | "textDocument/implementation" =>
        match decLocResult r.result with
        | some res => .ok (c, .Implementation res)
        | none => .error c
      | "textDocument/declaration" =>
        match decLocResult r.result with
        | some res => .ok (c, .Declaration res)
        | none => .error c
      | "textDocument/typeDefinition" =>
        match decLocResult r.result with
        | some res => .ok (c, .TypeDefinition res)
        | none => .error c
      | "textDocument/prepareCallHierarchy" =>
        match decOptResult (decList decCallHierarchyItem) r.result with
        | some res => .ok (c, .MCallHierarchItems res)
        | none => .error c
      | "textDocument/formatting" =>
        match decOptResult (decList decTextEdit) r.result with
        | some res => .ok (c, .DocumentFormatting (some r.id) res)
        | none => .error c
      | "textDocument/rangeFormatting" =>
        match decOptResult (decList decTextEdit) r.result with
        | some res => .ok (c, .DocumentFormatting (some r.id) res)
        | none => .error c
      | "workspace/symbol" =>
        match decOptResult (decList decSymbolInformation) r.result with
        | some res => .ok (c, .MWorkspaceSymbols res)
        | none => .error c
      | _ => .error c

end Tarts

namespace Tarts

/-! ## Facade operations (src/tarts/client.py).

Each operation first asserts its permitted lifecycle state and then sends;
a failed assert is a raised exception before any mutation, so the error
case carries the unchanged client. -/

def TextDocumentPosition.dumpFields (p : TextDocumentPosition) :
    List (String × Json) :=
  [("textDocument", p.textDocument.model_dump), ("position", p.position.model_dump)]

def CompletionContext.dumpFields (c : CompletionContext) : List (String × Json) :=
  [("triggerKind", .num c.triggerKind),
   ("triggerCharacter",
     match c.triggerCharacter with | some s => .str s | none => .null)]

/-- Client.send: hand the accumulated send buffer to the embedder and reset
it; legal in every state. -/
def Client.send (c : Client) : List Frame × Client :=
  (c.send_buf, { c with send_buf := [] })

/-- The byte-ingestion step of Client.recv (its first statement); the
subsequent `_parse_messages` loop lives in the absent io_handler module and
each complete parsed message is dispatched through `_handle_response` /
the server-request path. Feeding performs no lifecycle check. -/
def recv_feed (c : Client) (data : List Nat) : Client :=
  { c with recv_buf := c.recv_buf ++ data }

/-- Client.shutdown. -/
def Client.shutdown (c : Client) : Except Client Client :=
  if c.state = ClientState.NORMAL then
    .ok { (_send_request c "shutdown" none).2 with state := .WAITING_FOR_SHUTDOWN }
  else .error c

/-- Client.exit. -/
def Client.exit (c : Client) : Except Client Client :=
  if c.state = ClientState.SHUTDOWN then
    .ok { (_send_notification c "exit" (some (.obj []))) with state := .EXITED }
  else .error c

/-- Client.cancel_last_request: a `$/cancelRequest` notification carrying
`id_counter - 1`; no state check, no table or counter change. -/
def Client.cancel_last_request (c : Client) : Client :=
  _send_notification c "$/cancelRequest"
    (some (.obj [("id", .num ((c.id_counter : Int) - 1))]))

def Client.did_open (c : Client) (text_document : TextDocumentItem) :
    Except Client Client :=
  if c.state = ClientState.NORMAL then
    .ok (_send_notification c "textDocument/didOpen"
      (some (.obj [("textDocument", text_document.model_dump)])))
  else .error c

def Client.did_change (c : Client) (text_document : VersionedTextDocumentIdentifier)
    (content_changes : List TextDocumentContentChangeEvent) :
    Except Client Client :=
  if c.state = ClientState.NORMAL then
    .ok (_send_notification c "textDocument/didChange"
      (some (.obj [("textDocument", text_document.model_dump),
                   ("contentChanges",
                     .arr (content_changes.map
                       TextDocumentContentChangeEvent.model_dump))])))
  else .error c

def Client.will_save (c : Client) (text_document : TextDocumentIdentifier)
    (reason : Int) : Except Client Client :=
  if c.state = ClientState.NORMAL then
    .ok (_send_notification c "textDocument/willSave"
      (some (.obj [("textDocument", text_document.model_dump),
                   ("reason", .num reason)])))
  else .error c

def Client.will_save_wait_until (c : Client)
    (text_document : TextDocumentIdentifier) (reason : Int) :
    Except Client (Nat × Client) :=
  if c.state = ClientState.NORMAL then
    .ok (_send_request c "textDocument/willSaveWaitUntil"
      (some (.obj [("textDocument", text_document.model_dump),
                   ("reason", .num reason)])))
  else .error c

def Client.did_save (c : Client) (text_document : TextDocumentIdentifier)
    (text : Option String) : Except Client Client :=
  if c.state = ClientState.NORMAL then
    .ok (_send_notification c "textDocument/didSave"
      (some (.obj ([("textDocument", text_document.model_dump)]
        ++ (match text with | some s => [("text", .str s)] | none => [])))))
  else .error c

def Client.did_close (c : Client) (text_document : TextDocumentIdentifier) :
    Except Client Client :=
  if c.state = ClientState.NORMAL then
    .ok (_send_notification c "textDocument/didClose"
      (some (.obj [("textDocument", text_document.model_dump)])))
  else .error c

def Client.did_change_configuration (c : Client) (settings : Json) :
    Except Client Client :=
  if c.state = ClientState.NORMAL then
    .ok (_send_notification c "workspace/didChangeConfiguration" (some settings))
  else .error c

def Client.did_change_workspace_folders (c : Client)
    (added removed : List WorkspaceFolder) : Except Client Client :=
  if c.state = ClientState.NORMAL then
    .ok (_send_notification c "workspace/didChangeWorkspaceFolders"
      (some (.obj [("added", .arr (added.map WorkspaceFolder.model_dump)),
                   ("removed", .arr (removed.map WorkspaceFolder.model_dump))])))
  else .error c

def Client.completion (c : Client) (tdp : TextDocumentPosition)
    (context : Option CompletionContext) : Except Client (Nat × Client) :=
  if c.state = ClientState.NORMAL then
    let params := dictUpdate [] tdp.dumpFields
    let params :=
      match context with
      | some ctx => dictUpdate params ctx.dumpFields
      | none => params
    .ok (_send_request c "textDocument/completion" (some (.obj params)))
  else .error c

def Client.rename (c : Client) (tdp : TextDocumentPosition) (new_name : String) :
    Except Client (Nat × Client) :=
  if c.state = ClientState.NORMAL then
    .ok (_send_request c "textDocument/rename"
      (some (.obj (dictUpdate (dictUpdate [] tdp.dumpFields)
        [("newName", .str new_name)]))))
  else .error c

def Client.hover (c : Client) (tdp : TextDocumentPosition) :
    Except Client (Nat × Client) :=
  if c.state = ClientState.NORMAL then
    .ok (_send_request c "textDocument/hover" (some tdp.model_dump))
  else .error c

def Client.folding_range (c : Client) (text_document : TextDocumentIdentifier) :
    Except Client (Nat × Client) :=
  if c.state = ClientState.NORMAL then
    .ok (_send_request c "textDocument/foldingRange"
      (some (.obj [("textDocument", text_document.model_dump)])))
  else .error c

def Client.signatureHelp (c : Client) (tdp : TextDocumentPosition) :
    Except Client (Nat × Client) :=
  if c.state = ClientState.NORMAL then
    .ok (_send_request c "textDocument/signatureHelp" (some tdp.model_dump))
  else .error c

def Client.definition (c : Client) (tdp : TextDocumentPosition) :
    Except Client (Nat × Client) :=
  if c.state = ClientState.NORMAL then
    .ok (_send_request c "textDocument/definition" (some tdp.model_dump))
  else .error c

def Client.declaration (c : Client) (tdp : TextDocumentPosition) :
    Except Client (Nat × Client) :=
  if c.state = ClientState.NORMAL then
    .ok (_send_request c "textDocument/declaration" (some tdp.model_dump))
  else .error c

def Client.inlay_hint (c : Client) (text_document : TextDocumentIdentifier)
    (range : Range) : Except Client (Nat × Client) :=
  if c.state = ClientState.NORMAL then
    .ok (_send_request c "textDocument/inlayHint"
      (some (.obj [("textDocument", text_document.model_dump),
                   ("range", range.model_dump)])))
  else .error c

def Client.typeDefinition (c : Client) (tdp : TextDocumentPosition) :
    Except Client (Nat × Client) :=
  if c.state = ClientState.NORMAL then
    .ok (_send_request c "textDocument/typeDefinition" (some tdp.model_dump))
  else .error c

def Client.references (c : Client) (tdp : TextDocumentPosition) :
    Except Client (Nat × Client) :=
  if c.state = ClientState.NORMAL then
    .ok (_send_request c "textDocument/references"
      (some (.obj (("context", Json.obj [("includeDeclaration", .bool true)])
        :: tdp.dumpFields))))
  else .error c

def Client.prepareCallHierarchy (c : Client) (tdp : TextDocumentPosition) :
    Except Client (Nat × Client) :=
  if c.state = ClientState.NORMAL then
    .ok (_send_request c "textDocument/prepareCallHierarchy" (some tdp.model_dump))
  else .error c

def Client.implementation (c : Client) (tdp : TextDocumentPosition) :
    Except Client (Nat × Client) :=
  if c.state = ClientState.NORMAL then
    .ok (_send_request c "textDocument/implementation" (some tdp.model_dump))
  else .error c

def Client.workspace_symbol (c : Client) (query : String) :
    Except Client (Nat × Client) :=
  if c.state = ClientState.NORMAL then
    .ok (_send_request c "workspace/symbol" (some (.obj [("query", .str query)])))
  else .error c

def Client.documentSymbol (c : Client) (text_document : TextDocumentIdentifier) :
    Except Client (Nat × Client) :=
  if c.state = ClientState.NORMAL then
    .ok (_send_request c "textDocument/documentSymbol"
      (some (.obj [("textDocument", text_document.model_dump)])))
  else .error c

def Client.formatting (c : Client) (text_document : TextDocumentIdentifier)
    (options : FormattingOptions) : Except Client (Nat × Client) :=
  if c.state = ClientState.NORMAL then
    .ok (_send_request c "textDocument/formatting"
      (some (.obj [("textDocument", text_document.model_dump),
                   ("options", options.model_dump)])))
  else .error c

def Client.rangeFormatting (c : Client) (text_document : TextDocumentIdentifier)
    (range : Range) (options : FormattingOptions) : Except Client (Nat × Client) :=
  if c.state = ClientState.NORMAL then
    .ok (_send_request c "textDocument/rangeFormatting"
      (some (.obj [("textDocument", text_document.model_dump),
                   ("range", range.model_dump),
                   ("options", options.model_dump)])))
  else .error c

end Tarts

namespace Tarts

/-! ## Server-originated request events with reply capability
(src/tarts/events.py). The pydantic private attributes `_client` and `_id`
become an explicit client argument of `reply` and a stored id field. -/

/-- events.ShowMessageRequest. -/
structure ShowMessageRequest where
  type : Int
  message : String
  actions : Option (List MessageActionItem)
  _id : RId

/-- ShowMessageRequest.reply: appends one response echoing the stored id;
the source has no guard against repeated calls. -/
def ShowMessageRequest.reply (ev : ShowMessageRequest) (c : Client)
    (action : Option MessageActionItem) : Client :=
  _send_response c ev._id (action.map MessageActionItem.dict) none

/-- events.WorkspaceFolders. -/
structure WorkspaceFolders where
  result : Option (List WorkspaceFolder)
  _id : RId

/-- WorkspaceFolders.reply. -/
def WorkspaceFolders.reply (ev : WorkspaceFolders) (c : Client)
    (folders : Option (List WorkspaceFolder)) : Client :=
  _send_response c ev._id
    (folders.map (fun fs => .arr (fs.map WorkspaceFolder.model_dump))) none

end Tarts

namespace Tarts

/-! ## Operation enumeration and trace semantics, for stating the
state-gating, id and correlation invariants. -/

/-- One public request- or notification-emitting facade operation together
with its arguments. -/
inductive Op where
  | did_open (text_document : TextDocumentItem) : Op
  | did_change (text_document : VersionedTextDocumentIdentifier)
      (content_changes : List TextDocumentContentChangeEvent) : Op
  | will_save (text_document : TextDocumentIdentifier) (reason : Int) : Op
  | will_save_wait_until (text_document : TextDocumentIdentifier)
      (reason : Int) : Op
  | did_save (text_document : TextDocumentIdentifier) (text : Option String) : Op
  | did_close (text_document : TextDocumentIdentifier) : Op
  | did_change_configuration (settings : Json) : Op
  | did_change_workspace_folders (added removed : List WorkspaceFolder) : Op
  | completion (tdp : TextDocumentPosition)
      (context : Option CompletionContext) : Op
  | rename (tdp : TextDocumentPosition) (new_name : String) : Op
  | hover (tdp : TextDocumentPosition) : Op
  | folding_range (text_document : TextDocumentIdentifier) : Op
  | signatureHelp (tdp : TextDocumentPosition) : Op
  | definition (tdp : TextDocumentPosition) : Op
  | declaration (tdp : TextDocumentPosition) : Op
  | inlay_hint (text_document : TextDocumentIdentifier) (range : Range) : Op
  | typeDefinition (tdp : TextDocumentPosition) : Op
  | references (tdp : TextDocumentPosition) : Op
  | prepareCallHierarchy (tdp : TextDocumentPosition) : Op
  | implementation (tdp : TextDocumentPosition) : Op
  | workspace_symbol (query : String) : Op
  | documentSymbol (text_document : TextDocumentIdentifier) : Op
  | formatting (text_document : TextDocumentIdentifier)
      (options : FormattingOptions) : Op
  | rangeFormatting (text_document : TextDocumentIdentifier) (range : Range)
      (options : FormattingOptions) : Op
  | shutdown : Op
  | exit : Op
  | cancel_last_request : Op

/-- Run one facade operation; a request operation reports the allocated id. -/
def runOp : Op → Client → Except Client (Option Nat × Client)
  | .did_open td, c => (Client.did_open c td).map (fun c' => (none, c'))
  | .did_change td chs, c => (Client.did_change c td chs).map (fun c' => (none, c'))
  | .will_save td r, c => (Client.will_save c td r).map (fun c' => (none, c'))
  | .will_save_wait_until td r, c =>
      (Client.will_save_wait_until c td r).map (fun p => (some p.1, p.2))
  | .did_save td t, c => (Client.did_save c td t).map (fun c' => (none, c'))
  | .did_close td, c => (Client.did_close c td).map (fun c' => (none, c'))
  | .did_change_configuration s, c =>
      (Client.did_change_configuration c s).map (fun c' => (none, c'))
  | .did_change_workspace_folders a r, c =>
      (Client.did_change_workspace_folders c a r).map (fun c' => (none, c'))
  | .completion tdp ctx, c =>
      (Client.completion c tdp ctx).map (fun p => (some p.1, p.2))
  | .rename tdp n, c => (Client.rename c tdp n).map (fun p => (some p.1, p.2))
  | .hover tdp, c => (Client.hover c tdp).map (fun p => (some p.1, p.2))
  | .folding_range td, c =>
      (Client.folding_range c td).map (fun p => (some p.1, p.2))
  | .signatureHelp tdp, c =>
      (Client.signatureHelp c tdp).map (fun p => (some p.1, p.2))
  | .definition tdp, c => (Client.definition c tdp).map (fun p => (some p.1, p.2))
  | .declaration tdp, c =>
      (Client.declaration c tdp).map (fun p => (some p.1, p.2))
  | .inlay_hint td r, c =>
      (Client.inlay_hint c td r).map (fun p => (some p.1, p.2))
  | .typeDefinition tdp, c =>
      (Client.typeDefinition c tdp).map (fun p => (some p.1, p.2))
  | .references tdp, c => (Client.references c tdp).map (fun p => (some p.1, p.2))
  | .prepareCallHierarchy tdp, c =>
      (Client.prepareCallHierarchy c tdp).map (fun p => (some p.1, p.2))
  | .implementation tdp, c =>
      (Client.implementation c tdp).map (fun p => (some p.1, p.2))
  | .workspace_symbol q, c =>
      (Client.workspace_symbol c q).map (fun p => (some p.1, p.2))
  | .documentSymbol td, c =>
      (Client.documentSymbol c td).map (fun p => (some p.1, p.2))
  | .formatting td o, c => (Client.formatting c td o).map (fun p => (some p.1, p.2))
  | .rangeFormatting td r o, c =>
      (Client.rangeFormatting c td r o).map (fun p => (some p.1, p.2))
  | .shutdown, c => (Client.shutdown c).map (fun c' => (none, c'))
  | .exit, c => (Client.exit c).map (fun c' => (none, c'))
  | .cancel_last_request, c => .ok (none, Client.cancel_last_request c)

/-- The lifecycle states in which an operation is permitted (the spec's
permission table): document and query operations and shutdown only in
NORMAL, exit only in SHUTDOWN; cancel_last_request is ungated. -/
def permittedStates : Op → List ClientState
  | .shutdown => [.NORMAL]
  | .exit => [.SHUTDOWN]
  | .cancel_last_request =>
      [.NOT_INITIALIZED, .WAITING_FOR_INITIALIZED, .NORMAL,
       .WAITING_FOR_SHUTDOWN, .SHUTDOWN, .EXITED]
  | _ => [.NORMAL]

/-- One externally triggered session step. -/
inductive Step where
  | op (o : Op) : Step
  | response (r : Response) : Step
  | drain : Step
  | feed (data : List Nat) : Step

/-- The client after an exception-or-not outcome (a raised exception
leaves the session with the mutations made before the raise). -/
def resultClient : Except Client (Client × Event) → Client
  | .ok (c, _) => c
  | .error c => c

def applyStep (c : Client) : Step → Client
  | .op o =>
    match runOp o c with
    | .ok (_, c') => c'
    | .error c' => c'
  | .response r => resultClient (_handle_response c r)
  | .drain => (Client.send c).2
  | .feed data => recv_feed c data

def runTrace (c : Client) : List Step → Client
  | [] => c
  | s :: rest => runTrace (applyStep c s) rest

/-- The ids allocated (drawn from the counter, at send time) by one step. -/
def stepSent (c : Client) (s : Step) : List Nat :=
  List.range' c.id_counter ((applyStep c s).id_counter - c.id_counter)

/-- The ids whose correlation entry one step removes: a response step pops
its id when present (success, error and even a decoder exception after the
pop all leave the entry removed). -/
def stepDispatched (c : Client) : Step → List Nat
  | .response r =>
    if (c.unanswered_requests.lookup r.id).isSome then [r.id] else []
  | _ => []

def traceSent (c : Client) : List Step → List Nat
  | [] => []
  | s :: rest => stepSent c s ++ traceSent (applyStep c s) rest

def traceDispatched (c : Client) : List Step → List Nat
  | [] => []
  | s :: rest => stepDispatched c s ++ traceDispatched (applyStep c s) rest

/-- Sequentially issue raw requests through `Client._send_request`,
collecting the returned ids (every request-emitting facade operation
returns `_send_request`'s result unchanged). -/
def runRequests : Client → List (String × Option Json) → Client × List Nat
  | c, [] => (c, [])
  | c, (m, p) :: rest =>
    let r := _send_request c m p
    let rr := runRequests r.2 rest
    (rr.1, r.1 :: rr.2)

end Tarts

namespace Tarts

/-! ## Concrete sessions and payloads used to witness the theorems. -/

/-- A session constructed with auto-initialize (all-default arguments). -/
def clientW : Client := Client.new none none none "off" none [] true

/-- A session constructed without auto-initialize. -/
def freshClientW : Client := Client.new none none none "off" none [] false

/-- The initialize params the all-default construction produces. -/
def initParamsW : Json :=
  .obj [("processId", .null), ("rootUri", .null), ("workspaceFolders", .null),
        ("trace", .str "off"), ("capabilities", .null)]

/-- A NORMAL session with one outstanding completion request (id 1). -/
def completionClientW : Client :=
  { state := .NORMAL, recv_buf := [], send_buf := [],
    unanswered_requests := [(1, ⟨1, "textDocument/completion", none⟩)],
    id_counter := 2 }

/-- A NORMAL session with one outstanding references request (id 5). -/
def referencesClientW : Client :=
  { state := .NORMAL, recv_buf := [], send_buf := [],
    unanswered_requests := [(5, ⟨5, "textDocument/references", none⟩)],
    id_counter := 6 }

/-- A NORMAL session with an empty send buffer. -/
def emptyClientW : Client :=
  { state := .NORMAL, recv_buf := [], send_buf := [],
    unanswered_requests := [], id_counter := 0 }

end Tarts

namespace Tarts

/-! ## Helper lemmas. -/

lemma lookup_filter_ne (tbl : List (Nat × Request)) (i : Nat) :
    (tbl.filter (fun p => p.1 != i)).lookup i = none := by
  induction tbl with
  | nil => rfl
  | cons hd tl ih =>
    by_cases h : hd.1 = i
    · simp [List.filter_cons, h, ih]
    · have hbe : (i == hd.1) = false := beq_eq_false_iff_ne.mpr (Ne.symm h)
      simp [List.filter_cons, h, List.lookup, hbe, ih]

lemma mem_tableKeys_of_lookup (tbl : List (Nat × Request)) (i : Nat)
    (h : (tbl.lookup i).isSome) : i ∈ tableKeys tbl := by
  induction tbl with
  | nil => simp [List.lookup] at h
  | cons hd tl ih =>
    by_cases hh : i = hd.1
    · simp [tableKeys, hh]
    · have hbe : (i == hd.1) = false := beq_eq_false_iff_ne.mpr hh
      simp only [List.lookup, hbe] at h
      simp only [tableKeys, List.map_cons, List.mem_cons]
      exact Or.inr (ih h)

lemma mem_tableKeys_filter (tbl : List (Nat × Request)) (i a : Nat) :
    a ∈ tableKeys (tbl.filter (fun p => p.1 != i)) ↔ a ∈ tableKeys tbl ∧ a ≠ i := by
  simp only [tableKeys, List.mem_map, List.mem_filter, bne_iff_ne]
  constructor
  · rintro ⟨x, ⟨hx, hne⟩, rfl⟩
    exact ⟨⟨x, hx, rfl⟩, hne⟩
  · rintro ⟨⟨x, hx, rfl⟩, hne⟩
    exact ⟨x, ⟨hx, hne⟩, rfl⟩

end Tarts

namespace Tarts

/-- Every facade operation either raises leaving the client untouched, or
sends one notification (table and counter unchanged), or sends one request
carrying the freshly allocated id (table extended, counter bumped;
`shutdown` discards the id it allocates). -/
lemma runOp_shape (o : Op) (c : Client) :
    runOp o c = .error c ∨
    (∃ c' ret, runOp o c = .ok (ret, c')
      ∧ c'.unanswered_requests = c.unanswered_requests
      ∧ c'.id_counter = c.id_counter
      ∧ ∃ m p, c'.send_buf = c.send_buf ++ [Frame.notification m p]) ∨
    (∃ c' ret m p, runOp o c = .ok (ret, c')
      ∧ c'.unanswered_requests
          = c.unanswered_requests ++ [(c.id_counter, ⟨c.id_counter, m, p⟩)]
      ∧ c'.id_counter = c.id_counter + 1
      ∧ c'.send_buf = c.send_buf ++ [Frame.request c.id_counter m p]) := by
  cases o <;>
    simp only [runOp, Client.did_open, Client.did_change, Client.will_save,
      Client.will_save_wait_until, Client.did_save, Client.did_close,
      Client.did_change_configuration, Client.did_change_workspace_folders,
      Client.completion, Client.rename, Client.hover, Client.folding_range,
      Client.signatureHelp, Client.definition, Client.declaration,
      Client.inlay_hint, Client.typeDefinition, Client.references,
      Client.prepareCallHierarchy, Client.implementation,
      Client.workspace_symbol, Client.documentSymbol, Client.formatting,
      Client.rangeFormatting, Client.shutdown, Client.exit,
      Client.cancel_last_request, _send_request, _send_notification] <;>
    (try split_ifs) <;>
    (try simp only [Except.map]) <;>
    first
      | exact Or.inl trivial
      | exact Or.inl rfl
      | exact Or.inr (Or.inl ⟨_, _, rfl, rfl, rfl, _, _, rfl⟩)
      | exact Or.inr (Or.inr ⟨_, _, _, _, rfl, rfl, rfl, rfl⟩)

end Tarts

namespace Tarts

/-- Response dispatch pops the correlation entry first (KeyError when the
id is unknown); every subsequent branch, successful or raising, keeps the
entry removed, leaves the counter alone and only appends to the send
buffer. -/
lemma handle_response_shape (c : Client) (r : Response) :
    (c.unanswered_requests.lookup r.id = none ∧ _handle_response c r = .error c) ∨
    ((c.unanswered_requests.lookup r.id).isSome ∧
      (resultClient (_handle_response c r)).unanswered_requests
        = c.unanswered_requests.filter (fun p => p.1 != r.id) ∧
      (resultClient (_handle_response c r)).id_counter = c.id_counter ∧
      c.send_buf <+: (resultClient (_handle_response c r)).send_buf) := by
  cases hl : c.unanswered_requests.lookup r.id with
  | none =>
    refine Or.inl ⟨rfl, ?_⟩
    simp only [_handle_response, popEntry, hl]
  | some req =>
    refine Or.inr ⟨by simp [hl], ?_⟩
    simp only [_handle_response, popEntry, hl]
    repeat' split
    all_goals
      simp only [resultClient, _send_notification]
      refine ⟨?_, ?_, ?_⟩ <;>
        first
          | trivial
          | exact ⟨_, rfl⟩

end Tarts

namespace Tarts

/-! ## The claims. -/

/-- C1: constructing a session with auto-initialize enabled appends exactly
one `initialize` request (with id 0) to the send buffer and puts the
session in WAITING_FOR_INITIALIZED; dispatching a successful response with
the matching id makes the state NORMAL, emits an Initialized event and
appends exactly one `initialized` notification to the send buffer. -/
theorem C1_initialize_handshake
    (pid : Option Int) (ruri : Option String)
    (wf : Option (List WorkspaceFolder)) (trace : String) (caps : Option Json)
    (iopts : List (String × Json)) (c : Client) (i : Nat) (p : Option Json)
    (res : Json) (capsJ : Json)
    (hstate : c.state = ClientState.WAITING_FOR_INITIALIZED)
    (hlook : c.unanswered_requests.lookup i = some ⟨i, "initialize", p⟩)
    (hdec : decInitialized (some res) = some capsJ) :
    (∃ d, (Client.new pid ruri wf trace caps iopts true).send_buf
        = [Frame.request 0 "initialize" (some d)]) ∧
    (Client.new pid ruri wf trace caps iopts true).state
      = ClientState.WAITING_FOR_INITIALIZED ∧
    _handle_response c ⟨i, some res, none⟩
      = .ok ({ c with
                unanswered_requests :=
                  c.unanswered_requests.filter (fun q => q.1 != i),
                send_buf := c.send_buf
                  ++ [Frame.notification "initialized" (some (.obj []))],
                state := ClientState.NORMAL },
             .Initialized capsJ) := by
  refine ⟨⟨.obj (initializeParamsDict pid ruri wf trace caps iopts), ?_⟩, ?_, ?_⟩
  · simp [Client.new, _send_request]
  · simp [Client.new, _send_request]
  · simp only [_handle_response, popEntry, hlook]
    simp [hstate, hdec, _send_notification]

theorem C1_initialize_handshake_witness :
    clientW.state = ClientState.WAITING_FOR_INITIALIZED ∧
    _handle_response clientW ⟨0, some (.obj [("capabilities", .obj [])]), none⟩
      = .ok ({ clientW with
                unanswered_requests :=
                  clientW.unanswered_requests.filter (fun q => q.1 != 0),
                send_buf := clientW.send_buf
                  ++ [Frame.notification "initialized" (some (.obj []))],
                state := ClientState.NORMAL },
             .Initialized (.obj [])) := by
  have h := C1_initialize_handshake none none none "off" none [] clientW 0
    (some initParamsW) (.obj [("capabilities", .obj [])]) (.obj [])
    rfl rfl rfl
  exact ⟨h.2.1, h.2.2⟩

/-- C7: in WAITING_FOR_INITIALIZED, an error response to the outstanding
`initialize` request leaves the lifecycle state unchanged, emits a
ResponseError event carrying the server's code, message, data and the
originating id, removes the correlation entry, and queues no `initialized`
notification (the send buffer is unchanged). -/
theorem C7_initialize_error_response
    (c : Client) (i : Nat) (req : Request) (e : Json) (code : Int)
    (msg : String) (data : Option Json)
    (hstate : c.state = ClientState.WAITING_FOR_INITIALIZED)
    (hreq : req.method = "initialize")
    (hlook : c.unanswered_requests.lookup i = some req)
    (hdec : decResponseError e = some (code, msg, data)) :
    _handle_response c ⟨i, none, some e⟩
      = .ok ({ c with unanswered_requests :=
                 c.unanswered_requests.filter (fun q => q.1 != i) },
             .ResponseError (some i) code msg data) ∧
    (resultClient (_handle_response c ⟨i, none, some e⟩)).state = c.state ∧
    (resultClient (_handle_response c ⟨i, none, some e⟩)).send_buf = c.send_buf ∧
    ((resultClient (_handle_response c ⟨i, none, some e⟩)).unanswered_requests.lookup i)
      = none := by
  have h1 : _handle_response c ⟨i, none, some e⟩
      = .ok ({ c with unanswered_requests :=
                 c.unanswered_requests.filter (fun q => q.1 != i) },
             .ResponseError (some i) code msg data) := by
    simp only [_handle_response, popEntry, hlook, hdec]
  exact ⟨h1, by simp [h1, resultClient], by simp [h1, resultClient],
    by simp [h1, resultClient, lookup_filter_ne]⟩

theorem C7_initialize_error_response_witness :
    _handle_response clientW
        ⟨0, none, some (.obj [("code", .num (-32603)), ("message", .str "boom")])⟩
      = .ok ({ clientW with unanswered_requests :=
                 clientW.unanswered_requests.filter (fun q => q.1 != 0) },
             .ResponseError (some 0) (-32603) "boom" none) ∧
    (resultClient (_handle_response clientW
        ⟨0, none, some (.obj [("code", .num (-32603)), ("message", .str "boom")])⟩)).state
      = clientW.state :=
  ⟨(C7_initialize_error_response clientW 0 ⟨0, "initialize", some initParamsW⟩
      (.obj [("code", .num (-32603)), ("message", .str "boom")])
      (-32603) "boom" none rfl rfl rfl rfl).1,
   (C7_initialize_error_response clientW 0 ⟨0, "initialize", some initParamsW⟩
      (.obj [("code", .num (-32603)), ("message", .str "boom")])
      (-32603) "boom" none rfl rfl rfl rfl).2.1⟩

/-- C8: a completion response whose result fails to decode as a
CompletionList but is a dictionary containing an `items` key is salvaged:
the dispatcher synthesizes a CompletionList with isIncomplete=false and
the decoded items, and emits a Completion event carrying it together with
the originating request id. -/
theorem C8_completion_items_salvage
    (c : Client) (i : Nat) (p : Option Json) (res itemsJ : Json)
    (items : List CompletionItem)
    (hlook : c.unanswered_requests.lookup i
      = some ⟨i, "textDocument/completion", p⟩)
    (hfail : decCompletionList res = none)
    (hitems : res.get? "items" = some itemsJ)
    (hdec : decList decCompletionItem itemsJ = some items) :
    _handle_response c ⟨i, some res, none⟩
      = .ok ({ c with unanswered_requests :=
                 c.unanswered_requests.filter (fun q => q.1 != i) },
             .Completion i (some ⟨false, items⟩)) := by
  have hobj : res.isObj = true := by
    cases res <;> first | rfl | simp [Json.get?] at hitems
  simp only [_handle_response, popEntry, hlook]
  simp [hfail, hobj, hitems, hdec]

theorem C8_completion_items_salvage_witness :
    _handle_response completionClientW
        ⟨1, some (.obj [("items", .arr [])]), none⟩
      = .ok ({ completionClientW with unanswered_requests :=
                 completionClientW.unanswered_requests.filter (fun q => q.1 != 1) },
             .Completion 1 (some ⟨false, []⟩)) :=
  C8_completion_items_salvage completionClientW 1 none
    (.obj [("items", .arr [])]) (.arr []) [] rfl rfl rfl rfl

/-- C9: cancel_last_request appends one `$/cancelRequest` notification
whose id parameter is the most recently allocated id (the counter minus
one, which is exactly what the immediately preceding `_send_request`
returned); it does not touch the correlation table, the lifecycle state or
the id counter. -/
theorem C9_cancel_last_request (c : Client) (h : 1 ≤ c.id_counter) :
    Client.cancel_last_request c
      = { c with send_buf := c.send_buf
          ++ [Frame.notification "$/cancelRequest"
               (some (.obj [("id", .num ((c.id_counter : Int) - 1))]))] } ∧
    (Client.cancel_last_request c).unanswered_requests
      = c.unanswered_requests ∧
    (Client.cancel_last_request c).state = c.state ∧
    (Client.cancel_last_request c).id_counter = c.id_counter ∧
    (∀ (c₀ : Client) (m : String) (p : Option Json),
      ((_send_request c₀ m p).2.id_counter : Int) - 1
        = ((_send_request c₀ m p).1 : Int)) := by
  refine ⟨rfl, rfl, rfl, rfl, fun c₀ m p => ?_⟩
  simp [_send_request]

theorem C9_cancel_last_request_witness :
    (Client.cancel_last_request clientW).unanswered_requests
        = clientW.unanswered_requests ∧
    (Client.cancel_last_request clientW).id_counter = clientW.id_counter :=
  ⟨(C9_cancel_last_request clientW (by decide)).2.1,
   (C9_cancel_last_request clientW (by decide)).2.2.2.1⟩

/-- C10: a successfully dispatched response to a references,
implementation, declaration, typeDefinition, prepareCallHierarchy or
workspace/symbol request yields an event type that declares no message_id
field (the handler never sets one), so the event carries only the decoded
result and no originating request id. -/
theorem C10_result_only_events
    (c : Client) (r : Response) (req : Request) (c' : Client) (ev : Event)
    (hlook : c.unanswered_requests.lookup r.id = some req)
    (hm : req.method = "textDocument/references"
        ∨ req.method = "textDocument/implementation"
        ∨ req.method = "textDocument/declaration"
        ∨ req.method = "textDocument/typeDefinition"
        ∨ req.method = "textDocument/prepareCallHierarchy"
        ∨ req.method = "workspace/symbol")
    (herr : r.error = none)
    (hok : _handle_response c r = .ok (c', ev)) :
    Event.hasMessageId ev = false := by
  simp only [_handle_response, popEntry, hlook, herr] at hok
  rcases hm with hm | hm | hm | hm | hm | hm <;>
    (rw [hm] at hok; split at hok <;> (try split at hok) <;>
      (try (rw [Except.ok.injEq, Prod.mk.injEq] at hok
            obtain ⟨-, rfl⟩ := hok)) <;>
      simp_all [Event.hasMessageId])

theorem C10_result_only_events_witness :
    Event.hasMessageId (Event.References none) = false :=
  C10_result_only_events referencesClientW ⟨5, none, none⟩
    ⟨5, "textDocument/references", none⟩
    { referencesClientW with unanswered_requests := [] } (Event.References none)
    rfl (Or.inl rfl) rfl rfl

/-- C5: drain (send()) returns exactly the current send buffer, in append
order, and resets it to empty; a second drain with no intervening sends
returns empty; drain changes no other session state; and all other steps
only append to the send buffer (so between two drains the buffer is the
appended frames in order, returned exactly once). -/
theorem C5_drain_semantics (c : Client) :
    Client.send c = (c.send_buf, { c with send_buf := [] }) ∧
    (Client.send (Client.send c).2).1 = [] ∧
    (Client.send c).2.state = c.state ∧
    (Client.send c).2.id_counter = c.id_counter ∧
    (Client.send c).2.unanswered_requests = c.unanswered_requests ∧
    (Client.send c).2.recv_buf = c.recv_buf ∧
    (∀ (o : Op) (c₁ : Client), c₁.send_buf <+: (applyStep c₁ (.op o)).send_buf) ∧
    (∀ (r : Response) (c₁ : Client),
      c₁.send_buf <+: (applyStep c₁ (.response r)).send_buf) ∧
    (∀ (c₁ : Client) (data : List Nat),
      (recv_feed c₁ data).send_buf = c₁.send_buf) := by
  refine ⟨rfl, rfl, rfl, rfl, rfl, rfl, ?_, ?_, fun _ _ => rfl⟩
  · intro o c₁
    rcases runOp_shape o c₁ with herr
      | ⟨c', ret, hok, _, _, m, p, hbuf⟩ | ⟨c', ret, m, p, hok, _, _, hbuf⟩
    · simp [applyStep, herr]
    · simp only [applyStep, hok]
      rw [hbuf]; exact ⟨_, rfl⟩
    · simp only [applyStep, hok]
      rw [hbuf]; exact ⟨_, rfl⟩
  · intro r c₁
    rcases handle_response_shape c₁ r with ⟨_, herr⟩ | ⟨_, _, _, hbuf⟩
    · simp [applyStep, resultClient, herr]
    · exact hbuf

/-- C6 (counterexample): calling reply twice on the same server-request
event does not fail; the second call appends a second response to the send
buffer. -/
theorem C6_reply_twice_counterexample :
    (ShowMessageRequest.reply ⟨1, "m", none, .str "srv-7"⟩
        (ShowMessageRequest.reply ⟨1, "m", none, .str "srv-7"⟩ emptyClientW none)
        none).send_buf
      = [Frame.response (.str "srv-7") none none,
         Frame.response (.str "srv-7") none none] := rfl

/-- C6 (amended): reply appends one JSON-RPC response echoing the original
id on every call; the code has no once-only guard, so a second call on the
same event appends a second response rather than failing. -/
theorem C6_reply_appends_each_call (c : Client) (ev : ShowMessageRequest)
    (a : Option MessageActionItem) (wev : WorkspaceFolders)
    (fs : Option (List WorkspaceFolder)) :
    ShowMessageRequest.reply ev c a
      = { c with send_buf := c.send_buf
          ++ [Frame.response ev._id (a.map MessageActionItem.dict) none] } ∧
    ShowMessageRequest.reply ev (ShowMessageRequest.reply ev c a) a
      = { c with send_buf := c.send_buf
          ++ [Frame.response ev._id (a.map MessageActionItem.dict) none,
              Frame.response ev._id (a.map MessageActionItem.dict) none] } ∧
    WorkspaceFolders.reply wev c fs
      = { c with send_buf := c.send_buf
          ++ [Frame.response wev._id
               (fs.map (fun l => Json.arr (l.map WorkspaceFolder.model_dump)))
               none] } := by
  refine ⟨rfl, ?_, rfl⟩
  simp [ShowMessageRequest.reply, _send_response]

end Tarts

namespace Tarts

/-- C2: invoking any request- or notification-emitting facade operation in
a lifecycle state outside its permitted set (document and query operations
and shutdown only in NORMAL, exit only in SHUTDOWN) fails with the
InvalidState error carrying the unchanged client — the send buffer, id
counter and correlation table are untouched — while draining bytes out and
feeding bytes in are legal (plain total operations) in every state. -/
theorem C2_lifecycle_gating (o : Op) (c : Client)
    (h : c.state ∉ permittedStates o) :
    runOp o c = .error c ∧
    (∀ c₁ : Client, Client.send c₁ = (c₁.send_buf, { c₁ with send_buf := [] })) ∧
    (∀ (c₁ : Client) (data : List Nat),
      recv_feed c₁ data = { c₁ with recv_buf := c₁.recv_buf ++ data }) := by
  refine ⟨?_, fun _ => rfl, fun _ _ => rfl⟩
  cases o <;>
    simp only [permittedStates, List.mem_singleton, List.mem_cons,
      List.not_mem_nil, or_false] at h <;>
    first
      | (simp only [runOp, Client.did_open, Client.did_change, Client.will_save,
          Client.will_save_wait_until, Client.did_save, Client.did_close,
          Client.did_change_configuration, Client.did_change_workspace_folders,
          Client.completion, Client.rename, Client.hover, Client.folding_range,
          Client.signatureHelp, Client.definition, Client.declaration,
          Client.inlay_hint, Client.typeDefinition, Client.references,
          Client.prepareCallHierarchy, Client.implementation,
          Client.workspace_symbol, Client.documentSymbol, Client.formatting,
          Client.rangeFormatting, Client.shutdown, Client.exit]
         rw [if_neg h]
         rfl)
      | (exfalso
         cases hs : c.state <;> exact h (by simp [hs]))

theorem C2_lifecycle_gating_witness :
    runOp Op.shutdown freshClientW = Except.error freshClientW :=
  (C2_lifecycle_gating Op.shutdown freshClientW (by decide)).1

/-- The returned ids of a run of raw request sends: one block of
consecutive integers starting at the session's counter. -/
lemma runRequests_ids (c : Client) (reqs : List (String × Option Json)) :
    (runRequests c reqs).2 = List.range' c.id_counter reqs.length := by
  induction reqs generalizing c with
  | nil => rfl
  | cons hd tl ih =>
    simp [runRequests, _send_request, ih, List.range'_succ]

/-- C3: across any sequence of request-emitting operations on a session
whose counter is fresh, the returned ids are exactly 0, 1, 2, …: strictly
increasing non-negative integers beginning at 0, never reused. -/
theorem C3_monotonic_ids (c : Client) (reqs : List (String × Option Json))
    (h : c.id_counter = 0) :
    (runRequests c reqs).2 = List.range reqs.length ∧
    List.Pairwise (· < ·) (runRequests c reqs).2 ∧
    (runRequests c reqs).2.Nodup := by
  have hr : (runRequests c reqs).2 = List.range reqs.length := by
    rw [runRequests_ids, h, List.range_eq_range']
  exact ⟨hr, hr ▸ List.pairwise_lt_range _, hr ▸ List.nodup_range _⟩

theorem C3_monotonic_ids_witness :
    (runRequests freshClientW
        [("textDocument/hover", none), ("shutdown", none)]).2
      = List.range 2 :=
  (C3_monotonic_ids freshClientW
    [("textDocument/hover", none), ("shutdown", none)] rfl).1

end Tarts

namespace Tarts

/-- One-step preservation of the correlation bookkeeping: the key set of
the table stays equal to the allocated-but-undispatched ids, every
allocated id stays below the counter, and dispatched ids were allocated. -/
lemma C4_step (c : Client) (sent disp : List Nat) (s : Step)
    (h1 : ∀ a, a ∈ tableKeys c.unanswered_requests ↔ a ∈ sent ∧ a ∉ disp)
    (h2 : ∀ i ∈ sent, i < c.id_counter) (h3 : ∀ i ∈ disp, i ∈ sent) :
    (∀ a, a ∈ tableKeys (applyStep c s).unanswered_requests
        ↔ a ∈ sent ++ stepSent c s ∧ a ∉ disp ++ stepDispatched c s)
      ∧ (∀ i ∈ sent ++ stepSent c s, i < (applyStep c s).id_counter)
      ∧ (∀ i ∈ disp ++ stepDispatched c s, i ∈ sent ++ stepSent c s) := by
  cases s with
  | op o =>
    rcases runOp_shape o c with herr
      | ⟨c', ret, hok, hun, hid, m, p, hbuf⟩
      | ⟨c', ret, m, p, hok, hun, hid, hbuf⟩
    · have ha : applyStep c (.op o) = c := by simp [applyStep, herr]
      have hsent : stepSent c (.op o) = [] := by simp [stepSent, ha]
      have hd : stepDispatched c (.op o) = [] := rfl
      rw [ha, hsent, hd]
      simp only [List.append_nil]
      exact ⟨h1, h2, h3⟩
    · have ha : applyStep c (.op o) = c' := by simp [applyStep, hok]
      have hsent : stepSent c (.op o) = [] := by simp [stepSent, ha, hid]
      have hd : stepDispatched c (.op o) = [] := rfl
      rw [ha, hsent, hd, hun, hid]
      simp only [List.append_nil]
      exact ⟨h1, h2, h3⟩
    · have ha : applyStep c (.op o) = c' := by simp [applyStep, hok]
      have hsent : stepSent c (.op o) = [c.id_counter] := by
        simp [stepSent, ha, hid]
      have hd : stepDispatched c (.op o) = [] := rfl
      have hnotin : c.id_counter ∉ disp := fun hdisp =>
        absurd (h2 _ (h3 _ hdisp)) (lt_irrefl _)
      refine ⟨?_, ?_, ?_⟩
      · intro a
        have h1a := h1 a
        rw [ha, hsent, hd, hun]
        simp only [tableKeys, List.map_append, List.map_cons, List.map_nil,
          List.mem_append, List.mem_cons, List.not_mem_nil, or_false,
          List.append_nil, List.mem_singleton] at h1a ⊢
        by_cases hcase : a = c.id_counter
        · subst hcase; tauto
        · tauto
      · rw [ha, hsent, hid]
        intro i hi
        rcases List.mem_append.mp hi with hi | hi
        · exact Nat.lt_succ_of_lt (h2 _ hi)
        · rw [List.mem_singleton] at hi
          subst hi
          exact Nat.lt_succ_self _
      · rw [hsent, hd]
        simp only [List.append_nil, List.mem_append, List.mem_singleton]
        intro i hi
        exact Or.inl (h3 _ hi)
  | response r =>
    rcases handle_response_shape c r with ⟨hnone, herr⟩ | ⟨hsome, hun, hid, hbuf⟩
    · have ha : applyStep c (.response r) = c := by
        simp [applyStep, resultClient, herr]
      have hd : stepDispatched c (.response r) = [] := by
        simp [stepDispatched, hnone]
      have hsent : stepSent c (.response r) = [] := by
        simp [stepSent, ha]
      rw [ha, hsent, hd]
      simp only [List.append_nil]
      exact ⟨h1, h2, h3⟩
    · have hd : stepDispatched c (.response r) = [r.id] := by
        simp [stepDispatched, hsome]
      have hac : (applyStep c (.response r)).id_counter = c.id_counter := hid
      have hsent : stepSent c (.response r) = [] := by
        simp [stepSent, hac]
      have hmem : r.id ∈ sent :=
        ((h1 r.id).mp (mem_tableKeys_of_lookup _ _ hsome)).1
      have hk : (applyStep c (.response r)).unanswered_requests
          = c.unanswered_requests.filter (fun p => p.1 != r.id) := hun
      refine ⟨?_, ?_, ?_⟩
      · intro a
        have h1a := h1 a
        rw [hk, hsent, hd, mem_tableKeys_filter]
        simp only [List.append_nil, List.mem_append, List.mem_singleton]
        tauto
      · rw [hsent, hac]
        simp only [List.append_nil]
        exact h2
      · rw [hsent, hd]
        simp only [List.append_nil, List.mem_append, List.mem_singleton]
        rintro i (hi | rfl)
        · exact h3 _ hi
        · exact hmem
  | drain =>
    have hsent : stepSent c .drain = [] := by
      simp [stepSent, applyStep, Client.send]
    have hd : stepDispatched c .drain = [] := rfl
    rw [hsent, hd]
    simp only [List.append_nil]
    exact ⟨h1, h2, h3⟩
  | feed data =>
    have hsent : stepSent c (.feed data) = [] := by
      simp [stepSent, applyStep, recv_feed]
    have hd : stepDispatched c (.feed data) = [] := rfl
    rw [hsent, hd]
    simp only [List.append_nil]
    exact ⟨h1, h2, h3⟩

/-- C4: along any session trace the correlation table's key set equals the
set of ids of requests sent (inserted at send time) for which no response
has been dispatched (removed on any dispatched response, success or
error). -/
theorem C4_correlation_table (c : Client) (sent disp : List Nat)
    (steps : List Step)
    (h1 : ∀ a, a ∈ tableKeys c.unanswered_requests ↔ a ∈ sent ∧ a ∉ disp)
    (h2 : ∀ i ∈ sent, i < c.id_counter) (h3 : ∀ i ∈ disp, i ∈ sent) :
    ∀ a, a ∈ tableKeys (runTrace c steps).unanswered_requests
      ↔ a ∈ sent ++ traceSent c steps ∧ a ∉ disp ++ traceDispatched c steps := by
  induction steps generalizing c sent disp with
  | nil => simpa [runTrace, traceSent, traceDispatched] using h1
  | cons s rest ih =>
    obtain ⟨g1, g2, g3⟩ := C4_step c sent disp s h1 h2 h3
    have hmain := ih (applyStep c s) (sent ++ stepSent c s)
      (disp ++ stepDispatched c s) g1 g2 g3
    intro a
    have hma := hmain a
    simp only [runTrace, traceSent, traceDispatched, List.append_assoc,
      List.mem_append] at hma ⊢
    tauto

theorem C4_correlation_table_witness :
    0 ∈ tableKeys (runTrace clientW
        [Step.response ⟨0, some (.obj [("capabilities", .obj [])]), none⟩]).unanswered_requests
      ↔ 0 ∈ [0] ++ traceSent clientW
            [Step.response ⟨0, some (.obj [("capabilities", .obj [])]), none⟩]
        ∧ 0 ∉ ([] : List Nat) ++ traceDispatched clientW
            [Step.response ⟨0, some (.obj [("capabilities", .obj [])]), none⟩] :=
  C4_correlation_table clientW [0] []
    [Step.response ⟨0, some (.obj [("capabilities", .obj [])]), none⟩]
    (fun a => by
      show a ∈ [0] ↔ a ∈ [0] ∧ a ∉ ([] : List Nat)
      simp)
    (fun i hi => by
      simp only [List.mem_singleton] at hi
      subst hi
      decide)
    (fun i hi => by simp at hi)
    0

end Tarts
